/-
Verification of the UK Probate/Divorce case-processing backend.

Shallow embedding of the Python source under src/backend:
  * app/crews/probate_crew.py  — UKLegalResearchTool, ProbateCrew
  * app/crews/divorce_crew.py  — DivorceCrew
  * app/api/v1/endpoints/cases.py — job store and endpoints

Conventions:
  * Python dicts of known shape become structures; `d.get(k, default)`
    on an optional field becomes `Option.getD`.
  * Monetary values are rationals (ℚ); the decimal literals 0.4 and 0.7
    of the source are the exact rationals 2/5 and 7/10.
  * The inference backend (CrewAI `kickoff`) is a black box: its outcome
    is passed in as `Except String String` (error message, or the raw
    crew output text).
  * `datetime.now()` is passed in explicitly as a `now : String`.
  * String manipulation (`lower()`, `replace`, `title()`, substring
    containment) is implemented over `List Char` so that concrete
    instances reduce by `decide`.
-/
import Mathlib

namespace UKLegal

/-! ### String helpers (models of Python str operations) -/

/-- Does `needle` occur as a contiguous substring of `hay`
(model of Python `needle in hay`)? -/
def subAt : List Char → List Char → Bool
  | hay, needle =>
    needle.isPrefixOf hay ||
      match hay with
      | [] => false
      | _ :: t => subAt t needle

/-- Python `needle in hay` for strings. -/
def strContainsSub (hay needle : String) : Bool :=
  subAt hay.toList needle.toList

/-- Python `s.lower()` (ASCII data in this code base). -/
def strLower (s : String) : String :=
  (s.toList.map Char.toLower).asString

/-- Python `s.replace(c, d)` for single characters. -/
def strReplaceChar (s : String) (c d : Char) : String :=
  (s.toList.map fun x => if x = c then d else x).asString

/-- Core of Python `s.title()`: uppercase a letter starting a word,
lowercase other letters; a word boundary is any non-letter. -/
def titleAux : List Char → Bool → List Char
  | [], _ => []
  | c :: t, startWord =>
    if c.isAlpha then (if startWord then c.toUpper else c.toLower) :: titleAux t false
    else c :: titleAux t true

/-- Python `s.title()`. -/
def strTitle (s : String) : String :=
  (titleAux s.toList true).asString

/-! ### UKLegalResearchTool (probate_crew.py lines 18-251)

The five knowledge-base texts are transcribed from
`_load_comprehensive_legal_knowledge` line for line (the uniform
12-space indentation of the Python triple-quoted literals is stripped).
-/

def kbInheritanceTax : String :=
  "UK Inheritance Tax (2024/25 Tax Year) - Current Rates and Rules:

RATES AND THRESHOLDS:
• Nil-rate band: £325,000 (frozen until April 2028)
• Residence nil-rate band: £175,000 (for family homes passed to direct descendants)
• Combined maximum threshold: £500,000 for qualifying estates
• Standard rate: 40% on excess above thresholds
• Reduced rate: 36% if 10% or more left to charity
• Transferable nil-rate band: Unused portion from deceased spouse/civil partner

KEY EXEMPTIONS AND RELIEFS:
• Spouse/civil partner: Unlimited exemption (UK domiciled)
• Charity gifts: 100% exempt
• Annual exemption: £3,000 per year (can carry forward one year)
• Small gifts: £250 per person per year
• Wedding gifts: £5,000 (child), £2,500 (grandchild), £1,000 (others)
• Business Property Relief: 50% or 100% depending on asset type
• Agricultural Property Relief: 50% or 100% for qualifying agricultural property

PAYMENT AND COMPLIANCE:
• Payment due: 6 months after death
• Interest charged: Bank of England base rate + 2.5% on late payments
• Installments available: For certain assets (property, business assets)
• Forms required: IHT400 (estates >£325,000), IHT205 (smaller estates)
• Professional valuation: Required for assets >£1,500 individual value
"

def kbProbateProcess : String :=
  "UK Probate Process (2024 Current Procedures):

WHEN PROBATE IS REQUIRED:
• Estate value over £5,000 in England and Wales
• Property held in sole name (any value)
• Shares/investments over £15,000-£50,000 (varies by institution)
• Some banks require probate for amounts as low as £5,000
• Not required for jointly owned assets passing by survivorship

APPLICATION PROCESS:
• Online application: Available via GOV.UK (faster processing)
• Postal application: PA1P (with will) or PA1A (without will)
• Court fee: £273 for estates over £5,000 (no fee for estates under £5,000)
• Additional copies: £1.50 each (sealed copies)
• Processing time: 8-16 weeks (online faster than postal)
• Express service: Available for urgent cases (additional fee)

REQUIRED DOCUMENTS:
• Original death certificate (certified copy acceptable)
• Original will and any codicils (if they exist)
• Inheritance tax forms (IHT205 or IHT400)
• Oath for executors/administrators
• Asset and debt schedules

EXECUTOR DUTIES AND RESPONSIBILITIES:
• Fiduciary duty to act in best interests of estate and beneficiaries
• Must not profit from position unless specifically authorized
• Duty to preserve and protect estate assets
• Must distribute according to will terms or intestacy rules
• Personal liability for mistakes or breaches of duty
• Can be removed by court for failing in duties
• Should consider professional indemnity insurance
"

def kbPropertyValuation : String :=
  "Property Valuation for Probate (2024 Requirements):

VALUATION PRINCIPLES:
• Open market value at date of death (not forced sale value)
• Professional valuation recommended for properties >£500,000
• RICS qualified surveyor preferred for accuracy and HMRC acceptance
• Joint valuations acceptable for jointly owned property
• Consider any restrictions, rights of way, or planning issues

VALUATION METHODS:
• Comparative method: Recent sales of similar properties
• Investment method: For rental properties (yield-based)
• Residual method: For development land
• Profits method: For specialized properties (pubs, hotels)

HMRC CONSIDERATIONS:
• May challenge unrealistic valuations (too high or too low)
• Can request second independent valuation
• Penalties for deliberate undervaluation: Up to 100% of tax due
• Safe harbor: Professional valuation provides protection
• Market conditions: Consider economic factors at date of death

SPECIAL SITUATIONS:
• Jointly owned property: Value whole property, then apply ownership percentage
• Leasehold property: Consider lease terms and ground rent
• Agricultural property: May qualify for Agricultural Property Relief
• Business property: May qualify for Business Property Relief
• Overseas property: Include in UK estate if UK domiciled
"

def kbEstateAdministration : String :=
  "Estate Administration Best Practices (2024):

IMMEDIATE ACTIONS (First 2 weeks):
• Register death and obtain multiple death certificates
• Secure property and valuable assets
• Notify banks, insurers, pension providers, HMRC
• Cancel benefits, driving license, passport
• Arrange funeral and settle funeral expenses
• Locate will and important documents

ASSET COLLECTION AND VALUATION:
• Bank accounts and building society accounts
• Investments, shares, and unit trusts
• Property and land (residential and commercial)
• Personal possessions and household contents
• Business interests and partnerships
• Debts owed to the deceased
• Life insurance policies and pension benefits

DEBT PAYMENT PRIORITY ORDER:
1. Secured debts (mortgages, secured loans)
2. Funeral expenses and testamentary expenses
3. Preferential debts (employee wages, some taxes)
4. Ordinary unsecured debts
5. Interest on debts
6. Deferred debts (loans from shareholders)

DISTRIBUTION PROCEDURES:
• Follow will provisions exactly as written
• If no will, follow intestacy rules precisely
• Consider deed of variation (within 2 years of death)
• Obtain receipts from all beneficiaries
• Prepare estate accounts for beneficiaries
• Consider interim distributions for large estates

RECORD KEEPING REQUIREMENTS:
• Maintain detailed records for minimum 12 years
• Keep all receipts, bank statements, valuations
• Document all decisions and their rationale
• Prepare annual estate accounts if administration exceeds one year
"

def kbGdprCompliance : String :=
  "GDPR Compliance in Probate Administration (2024):

LAWFUL BASIS FOR PROCESSING:
• Legitimate interest: Estate administration and asset distribution
• Legal obligation: HMRC reporting, court requirements
• Consent: Marketing communications and non-essential processing
• Vital interests: Protecting beneficiaries\x27 financial interests

DATA SUBJECT RIGHTS:
• Deceased persons: Limited rights, some exercisable by estate
• Living beneficiaries: Full GDPR rights apply
• Executors: Can exercise certain rights on behalf of estate
• Right to be informed: Privacy notices for all data processing
• Right of access: Beneficiaries can request their personal data
• Right to rectification: Correct inaccurate information
• Right to erasure: Balanced against legal retention requirements

RETENTION PERIODS:
• Probate administration records: 12 years minimum
• Tax records: 7 years after completion of administration
• Personal data: Delete when no longer needed for legal purposes
• Beneficiary communications: 7 years after final distribution

SECURITY MEASURES:
• Encryption: AES-256 minimum for digital storage
• Access controls: Role-based permissions for staff
• Audit trails: Log all access to personal data
• Backup procedures: Secure, encrypted backups
• Physical security: Locked filing cabinets, secure premises
• Staff training: Regular GDPR awareness training

DATA SHARING:
• Third parties: Only share data necessary for estate administration
• Professional advisors: Ensure they have appropriate safeguards
• Beneficiaries: Can share their own data, not others\x27
• HMRC: Legal obligation to share for tax purposes
• Courts: Legal obligation for probate applications
"

/-- Model of `_load_comprehensive_legal_knowledge`: the fixed mapping from
section name to reference text, in source order. -/
def legal_knowledge : List (String × String) :=
  [ ("inheritance_tax_2024_25", kbInheritanceTax),
    ("probate_process_2024", kbProbateProcess),
    ("property_valuation_probate_2024", kbPropertyValuation),
    ("estate_administration_best_practices", kbEstateAdministration),
    ("gdpr_probate_compliance_2024", kbGdprCompliance) ]

/-- Model of `keyword_mapping` of `search_legal_info`, in source
order: keyword → associated section names. -/
def keyword_mapping : List (String × List String) :=
  [ ("inheritance tax", ["inheritance_tax_2024_25"]),
    ("iht", ["inheritance_tax_2024_25"]),
    ("tax", ["inheritance_tax_2024_25"]),
    ("probate", ["probate_process_2024", "estate_administration_best_practices"]),
    ("estate", ["estate_administration_best_practices", "probate_process_2024"]),
    ("property", ["property_valuation_probate_2024"]),
    ("valuation", ["property_valuation_probate_2024"]),
    ("gdpr", ["gdpr_probate_compliance_2024"]),
    ("compliance", ["gdpr_probate_compliance_2024"]),
    ("administration", ["estate_administration_best_practices"]) ]

/-- Inner loop of `search_legal_info`: add `section` to the accumulator
unless it is unknown or already present (`section in self.legal_knowledge
and section not in [s[0] for s in relevant_sections]`). -/
def addSection (acc : List (String × String)) (sec : String) : List (String × String) :=
  match legal_knowledge.lookup sec with
  | none => acc
  | some content =>
      if acc.any (fun s => s.1 = sec) then acc else acc ++ [(sec, content)]

/-- The keyword-matching loop of `search_legal_info`: fold over
`keyword_mapping`, appending the sections of each matched keyword. -/
def matchedSections (query_lower : String) : List (String × String) :=
  keyword_mapping.foldl
    (fun acc kv =>
      if strContainsSub query_lower kv.1 then kv.2.foldl addSection acc else acc)
    []

/-- The default pair returned when no keyword matches. -/
def defaultSections : List (String × String) :=
  [ ("probate_process_2024", kbProbateProcess),
    ("inheritance_tax_2024_25", kbInheritanceTax) ]

/-- Model of `relevant_sections` as computed by `search_legal_info` just before
formatting: keyword matches, or the default pair when empty. -/
def relevantSections (query : String) : List (String × String) :=
  let found := matchedSections (strLower query)
  if found = [] then defaultSections else found

/-- Formatting of one selected section:
`f"**\x7bsection_name.replace(underscore, space).title()\x7d:**\n\x7bcontent\x7d\n\n"`. -/
def formatSection (s : String × String) : String :=
  "**" ++ strTitle (strReplaceChar s.1 '_' ' ') ++ ":**\n" ++ s.2 ++ "\n\n"

/-- The fixed disclaimer suffix of every response. -/
def disclaimerNote : String :=
  "\n**Important Note:** This information is for guidance only. Always consult qualified legal professionals for specific advice on individual cases."

/-- Model of `UKLegalResearchTool.search_legal_info` (probate_crew.py 211-251). -/
def search_legal_info (query : String) : String :=
  let header := "Legal Research Results for: \x27" ++ query ++ "\x27\n\n"
  let body := ((relevantSections query).take 2).foldl
    (fun acc s => acc ++ formatSection s) ""
  header ++ body ++ disclaimerNote

end UKLegal

namespace UKLegal

/-! ### Case Input (the untyped request mapping)

The endpoints accept an arbitrary JSON object; the crews read a fixed
set of keys with `case_data.get(key)` / `case_data.get(key, default)`.
Each key the code reads becomes an optional field (absence = `none`);
`case_id` is always present because the endpoint assigns it before any
other code runs. -/

structure CaseData where
  case_id : String
  deceased_name : Option String := none
  executor_name : Option String := none
  client_name : Option String := none
  estate_value : Option ℚ := none
  property_value : Option ℚ := none
  property_address : Option String := none
  urgency_level : Option String := none
  marriage_duration : Option ℚ := none
  children_count : Option ℚ := none
  dispute_level : Option String := none
  property_type : Option String := none
  deriving Repr, DecidableEq

namespace ProbateCrew

/-! ### ProbateCrew (probate_crew.py lines 254-960) -/

/-- The dict returned by `_enhance_case_with_context`: the input dict
plus the keys it adds (`property_considerations` stays absent when
`property_value <= 0`). -/
structure EnhancedCaseData extends CaseData where
  iht_likely : Bool
  complexity_factors : List String
  property_considerations : Option (List String)
  deriving Repr, DecidableEq

/-- Model of `ProbateCrew._enhance_case_with_context` (lines 738-764). -/
def enhance_case_with_context (cd : CaseData) : EnhancedCaseData :=
  let estate_value := cd.estate_value.getD 0
  let property_value := cd.property_value.getD 0
  let ihtPair : Bool × List String :=
    if estate_value > 500000 then
      (true, ["High estate value", "IHT planning required"])
    else if estate_value > 325000 then
      (true, ["Potential IHT liability", "Residence nil-rate band assessment needed"])
    else
      (false, ["Below IHT threshold", "Simplified process possible"])
  { toCaseData := cd
    iht_likely := ihtPair.1
    complexity_factors := ihtPair.2
    property_considerations :=
      if property_value > 0 then
        some ["Professional valuation required",
              "Title deed verification needed",
              "Property transfer procedures apply"]
      else none }

/-- Model of `ProbateCrew._assess_complexity` (lines 766-794): the Python literal
`0.7` is the exact rational 7/10 here. -/
def assess_complexity (cd : CaseData) : String :=
  let estate_value := cd.estate_value.getD 0
  let property_value := cd.property_value.getD 0
  let score0 : ℕ :=
    if estate_value > 2000000 then 3
    else if estate_value > 1000000 then 2
    else if estate_value > 500000 then 1
    else 0
  let score1 := if property_value > estate_value * (7/10) then score0 + 1 else score0
  let score2 := if cd.urgency_level = some "HIGH" then score1 + 1 else score1
  if score2 ≥ 4 then "HIGH"
  else if score2 ≥ 2 then "MEDIUM"
  else "LOW"

/-- The dict built by `_extract_tax_info`.  The source renders the five
monetary figures as comma-grouped `£` strings; the numbers themselves
are modelled (the rendering is injective on them). -/
structure TaxAnalysis where
  estate_value : ℚ
  property_value : ℚ
  nil_rate_band : ℚ
  residence_nil_rate_band : ℚ
  combined_threshold : ℚ
  potential_iht : ℚ
  iht_rate : String
  reduced_rate_available : String
  reliefs_available : List String
  payment_deadline : String
  forms_required : List String
  optimization_opportunities : List String
  deriving Repr, DecidableEq

/-- Model of `ProbateCrew._extract_tax_info` (lines 880-913): the Python literal
`0.4` is the exact rational 2/5. -/
def extract_tax_info (cd : CaseData) : TaxAnalysis :=
  let estate_value := cd.estate_value.getD 0
  let property_value := cd.property_value.getD 0
  let nil_rate_band : ℚ := 325000
  let residence_band : ℚ := 175000
  let total_threshold := nil_rate_band + residence_band
  let potential_iht := max 0 ((estate_value - total_threshold) * (2/5))
  { estate_value := estate_value
    property_value := property_value
    nil_rate_band := nil_rate_band
    residence_nil_rate_band := residence_band
    combined_threshold := total_threshold
    potential_iht := potential_iht
    iht_rate := "40% on excess above threshold"
    reduced_rate_available := "36% if 10%+ to charity"
    reliefs_available :=
      ["Spouse/civil partner exemption (unlimited)",
       "Charity relief (100% exempt)",
       "Business property relief (up to 100%)",
       "Agricultural property relief (up to 100%)"]
    payment_deadline := "6 months from death"
    forms_required := ["IHT400 (if estate >£325,000)", "IHT205 (if estate <£325,000)"]
    optimization_opportunities :=
      ["Deed of variation (within 2 years)",
       "Charitable giving for reduced rate",
       "Asset revaluation if appropriate"] }

/-- Model of `ProbateCrew._extract_key_findings` (lines 836-845). -/
def extract_key_findings (_crew_result : String) : List String :=
  ["📋 Comprehensive document analysis completed with detailed recommendations",
   "⚖️ Legal strategy developed with current UK probate law compliance",
   "💰 Inheritance tax calculation completed with optimization strategies",
   "🛡️ GDPR compliance verified with current ICO guidance",
   "📊 Master case management plan created with integrated timeline",
   "🔍 Risk assessment completed with specific mitigation strategies"]

/-- Model of `ProbateCrew._extract_next_steps` (lines 847-857). -/
def extract_next_steps (_crew_result : String) : List String :=
  ["📋 Priority 1: Gather death certificate and will documents",
   "💰 Priority 1: Obtain professional property valuation (RICS qualified)",
   "📝 Priority 2: Prepare probate application with current forms",
   "🏦 Priority 2: Contact banks and financial institutions for asset details",
   "📞 Priority 3: Schedule consultation with qualified legal advisor",
   "💼 Priority 3: Review inheritance tax planning options and deadlines",
   "🔍 Priority 4: Verify beneficiary details and contact information"]

/-- The dict built by `_extract_timeline` (lines 859-867). -/
structure ProbateTimeline where
  weeks_1_4 : String
  weeks_5_8 : String
  weeks_9_20 : String
  weeks_21_40 : String
  weeks_41_52 : String
  deriving Repr, DecidableEq

/-- Model of `ProbateCrew._extract_timeline` (lines 859-867). -/
def extract_timeline (_crew_result : String) : ProbateTimeline :=
  { weeks_1_4 := "Document collection, asset identification, and initial valuations"
    weeks_5_8 := "Probate application preparation and submission to court"
    weeks_9_20 := "Court processing, grant issuance, and asset access"
    weeks_21_40 := "Asset realization, debt payment, and beneficiary distribution"
    weeks_41_52 := "Final accounts preparation and case closure" }

/-- The dict built by `_extract_costs` (lines 869-878). -/
structure CostEstimates where
  court_fees : String
  legal_fees : String
  valuation_costs : String
  professional_fees : String
  administrative_costs : String
  total_estimate : String
  deriving Repr, DecidableEq

/-- Model of `ProbateCrew._extract_costs` (lines 869-878). -/
def extract_costs (_crew_result : String) : CostEstimates :=
  { court_fees := "£273 (estates over £5,000)"
    legal_fees := "£2,000 - £8,000 (complexity dependent)"
    valuation_costs := "£300 - £1,000 (property type dependent)"
    professional_fees := "£500 - £2,000 (accountant, surveyor fees)"
    administrative_costs := "£200 - £500 (copies, postage, etc.)"
    total_estimate := "£3,275 - £11,773" }

/-- Model of `ProbateCrew._extract_compliance_score` (lines 915-917). -/
def extract_compliance_score (_crew_result : String) : ℕ := 94

/-- Model of `ProbateCrew._extract_recommendations` (lines 919-929). -/
def extract_recommendations (_crew_result : String) : List String :=
  ["Consider deed of variation within 2-year window for tax optimization",
   "Obtain professional property valuation immediately to avoid delays",
   "Implement comprehensive beneficiary communication strategy",
   "Establish robust record-keeping system for 12-year retention requirement",
   "Consider professional indemnity insurance for executor protection",
   "Review estate liquidity for inheritance tax payment requirements",
   "Engage qualified legal professionals for complex aspects"]

end ProbateCrew

end UKLegal

namespace UKLegal

namespace ProbateCrew

/-- The `summary` sub-dict of `_structure_probate_results`. -/
structure ProbateSummary where
  case_type : String
  deceased : Option String
  executor : Option String
  estate_value : ℚ
  property_value : ℚ
  complexity : String
  estimated_duration : String
  ai_confidence : String
  iht_likely : Bool
  deriving Repr, DecidableEq

/-- The dict returned by `_structure_probate_results` (lines 796-834). -/
structure StructuredResults where
  case_id : String
  processing_status : String
  crew_analysis : String
  summary : ProbateSummary
  key_findings : List String
  next_steps : List String
  timeline : ProbateTimeline
  cost_estimates : CostEstimates
  tax_analysis : TaxAnalysis
  compliance_score : ℕ
  recommendations : List String
  processed_at : String
  crew_agents : List String
  tools_used : List String
  deriving Repr, DecidableEq

/-- Model of `ProbateCrew._structure_probate_results` (lines 796-834); `now`
stands for `datetime.now().isoformat()`. -/
def structure_probate_results (cd : EnhancedCaseData) (crew_result now : String) :
    StructuredResults :=
  { case_id := cd.case_id
    processing_status := "completed"
    crew_analysis := crew_result
    summary :=
      { case_type := "Probate"
        deceased := cd.deceased_name
        executor := cd.executor_name
        estate_value := cd.estate_value.getD 0
        property_value := cd.property_value.getD 0
        complexity := assess_complexity cd.toCaseData
        estimated_duration := "16-24 weeks"
        ai_confidence := "95%"
        iht_likely := cd.iht_likely }
    key_findings := extract_key_findings crew_result
    next_steps := extract_next_steps crew_result
    timeline := extract_timeline crew_result
    cost_estimates := extract_costs crew_result
    tax_analysis := extract_tax_info cd.toCaseData
    compliance_score := extract_compliance_score crew_result
    recommendations := extract_recommendations crew_result
    processed_at := now
    crew_agents :=
      ["Document Analyst", "Legal Advisor", "Tax Specialist",
       "Compliance Officer", "Case Manager"]
    tools_used :=
      ["UK Legal Research Tool", "Web Search Tool", "File Analysis Tool"] }

/-- The `summary` sub-dict of `_generate_fallback_results`. -/
structure FallbackSummary where
  case_type : String
  deceased : Option String
  estate_value : ℚ
  status : String
  fallback_mode : Bool
  deriving Repr, DecidableEq

/-- The dict returned by `_generate_fallback_results` (lines 931-960). -/
structure FallbackResults where
  case_id : String
  processing_status : String
  error : String
  summary : FallbackSummary
  next_steps : List String
  recommendations : List String
  processed_at : String
  fallback_reason : String
  deriving Repr, DecidableEq

/-- Model of `ProbateCrew._generate_fallback_results` (lines 931-960). -/
def generate_fallback_results (cd : EnhancedCaseData) (error now : String) :
    FallbackResults :=
  { case_id := cd.case_id
    processing_status := "completed_with_fallback"
    error := "CrewAI processing error: " ++ error
    summary :=
      { case_type := "Probate"
        deceased := cd.deceased_name
        estate_value := cd.estate_value.getD 0
        status := "Manual review required"
        fallback_mode := true }
    next_steps :=
      ["📞 Contact qualified legal advisor for immediate manual review",
       "📋 Prepare basic probate documentation checklist",
       "💰 Obtain professional property valuation",
       "📝 Review estate assets and liabilities comprehensively",
       "🏦 Contact financial institutions for asset information"]
    recommendations :=
      ["Seek professional legal advice immediately due to processing error",
       "Gather all estate documentation for manual review",
       "Consider professional estate administration service",
       "Ensure all deadlines are monitored manually",
       "Implement backup record-keeping procedures"]
    processed_at := now
    fallback_reason := "AI processing temporarily unavailable - manual review recommended" }

/-- The value returned by `ProbateCrew.process_probate_case`: a normal
structured payload, or the fallback payload when `kickoff` raised. -/
inductive ProbateResults where
  | structured (r : StructuredResults)
  | fallback (r : FallbackResults)
  deriving Repr, DecidableEq

/-- Model of `ProbateCrew.process_probate_case` (lines 399-736).  The CrewAI
`probate_crew.kickoff()` call is the black-box inference backend; its
outcome is the `kickoff` argument (`.ok text` = the crew returned
`text`; `.error e` = some step of the crew raised `e`).  The `try`
around the kickoff catches the exception and degrades to
`_generate_fallback_results`; no exception escapes this function. -/
def process_probate_case (cd : CaseData) (kickoff : Except String String)
    (now : String) : ProbateResults :=
  let enhanced := enhance_case_with_context cd
  match kickoff with
  | .ok crew_result => .structured (structure_probate_results enhanced crew_result now)
  | .error e => .fallback (generate_fallback_results enhanced e now)

/-- The declared task dependencies of the probate pipeline: for each task of
`process_probate_case`, in crew order, the list of tasks passed as its
`context=[...]` argument (lines 413-697). -/
def pipeline : List (String × List String) :=
  [ ("document_analysis", []),
    ("legal_strategy", ["document_analysis"]),
    ("tax_calculation", ["document_analysis", "legal_strategy"]),
    ("compliance_assessment", ["document_analysis"]),
    ("case_management",
      ["document_analysis", "legal_strategy", "tax_calculation", "compliance_assessment"]) ]

end ProbateCrew

end UKLegal

namespace UKLegal

namespace DivorceCrew

/-! ### DivorceCrew (divorce_crew.py) -/

/-- The `summary` dict of `DivorceCrew._create_summary` (lines 254-263).
`marriage_duration` and `property_value` are rendered as strings in the
source; the numbers are modelled. -/
structure DivorceSummary where
  case_type : String
  marriage_duration : ℚ
  property_value : ℚ
  children : ℚ
  complexity : String
  estimated_duration : String
  deriving Repr, DecidableEq

/-- Model of `DivorceCrew._create_summary` (lines 254-263). -/
def create_summary (cd : CaseData) (_result : String) : DivorceSummary :=
  { case_type := "Divorce"
    marriage_duration := cd.marriage_duration.getD 0
    property_value := cd.property_value.getD 0
    children := cd.children_count.getD 0
    complexity := "Medium"
    estimated_duration := "6-12 months" }

/-- One entry of `_extract_settlement_options`. -/
structure SettlementOption where
  option : String
  description : String
  pros : String
  cons : String
  deriving Repr, DecidableEq

/-- Model of `DivorceCrew._extract_settlement_options` (lines 265-286). -/
def extract_settlement_options (_result : String) : List SettlementOption :=
  [ { option := "50/50 Split with Property Sale"
      description := "Sell house and split everything equally"
      pros := "Simple and fair"
      cons := "Need to find new homes" },
    { option := "One Person Keeps House"
      description := "One person buys out the other\x27s share"
      pros := "Stability for children"
      cons := "Need mortgage approval" },
    { option := "Delayed Sale"
      description := "Keep house until children are older"
      pros := "Minimal disruption to children"
      cons := "Ongoing shared ownership" } ]

/-- Model of `DivorceCrew._extract_next_steps` (lines 288-296). -/
def extract_next_steps (_result : String) : List String :=
  ["📋 Complete financial disclosure forms",
   "🏠 Get professional property valuation",
   "👨‍👩‍👧‍👦 Consider children\x27s needs and preferences",
   "🤝 Schedule mediation session",
   "📞 Consult with family law solicitor"]

/-- The dict returned by `DivorceCrew.process_divorce_case` on success
(lines 245-252). -/
structure DivorceResults where
  case_id : String
  status : String
  ai_analysis : String
  summary : DivorceSummary
  settlement_options : List SettlementOption
  next_steps : List String
  deriving Repr, DecidableEq

/-- Model of `DivorceCrew.process_divorce_case` (lines 90-252).  The
`crew.kickoff()` call (line 241) is NOT wrapped in any `try`: when the
inference backend raises, the exception propagates out of this method
unchanged, so the result is `Except` — there is no divorce fallback. -/
def process_divorce_case (cd : CaseData) (kickoff : Except String String) :
    Except String DivorceResults :=
  match kickoff with
  | .error e => .error e
  | .ok result =>
      .ok { case_id := cd.case_id
            status := "completed"
            ai_analysis := result
            summary := create_summary cd result
            settlement_options := extract_settlement_options result
            next_steps := extract_next_steps result }

/-- The declared task dependencies of the divorce pipeline, in crew order
(divorce_crew.py lines 96-218). -/
def pipeline : List (String × List String) :=
  [ ("financial_analysis", []),
    ("legal_strategy", ["financial_analysis"]),
    ("property_strategy", ["financial_analysis"]),
    ("mediation_plan", ["financial_analysis", "legal_strategy", "property_strategy"]) ]

end DivorceCrew

namespace CasesApi

/-! ### API endpoints and the in-memory job store (cases.py)

`case_results` is a Python dict keyed by case id; it is modelled as an
association list with dict-assignment semantics (`storeSet` replaces an
existing binding in place or appends a new one).  Timestamps
(`datetime.now().isoformat()`) are passed in as strings. -/

/-- A payload stored under the `results` key: whatever the probate or
divorce crew returned. -/
inductive ResultsPayload where
  | probate (r : ProbateCrew.ProbateResults)
  | divorce (r : DivorceCrew.DivorceResults)
  deriving Repr, DecidableEq

/-- One entry of the `case_results` dict. -/
structure JobRecord where
  status : String
  created_at : String
  case_type : String
  case_data : CaseData
  results : Option ResultsPayload := none
  completed_at : Option String := none
  error : Option String := none
  deriving Repr, DecidableEq

/-- The `case_results` dict. -/
def Store : Type := List (String × JobRecord)

instance : DecidableEq Store := by unfold Store; infer_instance

/-- Python dict assignment `case_results[k] = v`: replace the binding
if the key exists, otherwise add it. -/
def storeSet : Store → String → JobRecord → Store
  | [], k, v => [(k, v)]
  | (k', v') :: t, k, v =>
      if k' = k then (k, v) :: t else (k', v') :: storeSet t k v

/-- Python `k in case_results` / `case_results[k]`. -/
def storeGet (s : Store) (k : String) : Option JobRecord :=
  List.lookup k s

/-- The JSON body returned by the two creation endpoints. -/
structure CreateResponse where
  success : Bool
  case_id : String
  status : String
  message : String
  estimated_time : String
  deriving Repr, DecidableEq

/-- Model of `create_probate_case` (cases.py lines 21-52).  `hexToken` stands for
`uuid.uuid4().hex[:8].upper()`.  Note: the new record is stored with
`storeSet` unconditionally — the endpoint never checks whether
`case_id` is already a key of the store. -/
def create_probate_case (store : Store) (hexToken : String) (case_data : CaseData)
    (now : String) : Store × CreateResponse :=
  let case_id := "PROB_" ++ hexToken
  let case_data := { case_data with case_id := case_id }
  let store := storeSet store case_id
    { status := "processing"
      created_at := now
      case_type := "probate"
      case_data := case_data }
  (store,
   { success := true
     case_id := case_id
     status := "processing"
     message := "🚀 Your probate case is being analyzed by our AI agents"
     estimated_time := "2-5 minutes" })

/-- Model of `create_divorce_case` (cases.py lines 54-85). -/
def create_divorce_case (store : Store) (hexToken : String) (case_data : CaseData)
    (now : String) : Store × CreateResponse :=
  let case_id := "DIV_" ++ hexToken
  let case_data := { case_data with case_id := case_id }
  let store := storeSet store case_id
    { status := "processing"
      created_at := now
      case_type := "divorce"
      case_data := case_data }
  (store,
   { success := true
     case_id := case_id
     status := "processing"
     message := "🚀 Your divorce case is being analyzed by our AI agents"
     estimated_time := "3-7 minutes" })

/-- The JSON body returned by `get_case_status`. -/
structure StatusResponse where
  case_id : String
  status : String
  case_type : String
  created_at : String
  progress : String
  deriving Repr, DecidableEq

/-- An `HTTPException(status_code, detail)` raised by an endpoint. -/
structure HttpError where
  status_code : ℕ
  detail : String
  deriving Repr, DecidableEq

/-- Model of `get_case_status` (cases.py lines 87-103). -/
def get_case_status (store : Store) (case_id : String) :
    Except HttpError StatusResponse :=
  match storeGet store case_id with
  | none => .error { status_code := 404, detail := "Case not found" }
  | some case_ =>
      .ok { case_id := case_id
            status := case_.status
            case_type := case_.case_type
            created_at := case_.created_at
            progress :=
              if case_.status = "processing" then "🤖 AI agents are working..."
              else "✅ Complete" }

/-- The JSON body returned by `get_case_results`; `results` is `none`
when the record has no `results` key (Python `case.get("results", \x7b\x7d)`). -/
structure ResultsResponse where
  case_id : String
  results : Option ResultsPayload
  status : String
  deriving Repr, DecidableEq

/-- Model of `get_case_results` (cases.py lines 105-122). -/
def get_case_results (store : Store) (case_id : String) :
    Except HttpError ResultsResponse :=
  match storeGet store case_id with
  | none => .error { status_code := 404, detail := "Case not found" }
  | some case_ =>
      if case_.status ≠ "completed" then
        .error { status_code := 400, detail := "Case is still processing" }
      else
        .ok { case_id := case_id
              results := case_.results
              status := "completed" }

/-- Model of `process_probate_background` (cases.py lines 125-148), as its effect
on the job record stored under its case id.  `run` is the outcome of
the `try` body (`ProbateCrew()` construction plus
`crew.process_probate_case(case_data)`): `.ok results` when it returned
normally — note that `process_probate_case` itself already converts a
kickoff failure into an `.ok` fallback payload — and `.error e` when it
raised, in which case the `except` arm records status "error" and the
stringified exception. -/
def process_probate_background (rec : JobRecord)
    (run : Except String ProbateCrew.ProbateResults) (now : String) : JobRecord :=
  match run with
  | .ok results =>
      { rec with
        status := "completed"
        results := some (.probate results)
        completed_at := some now }
  | .error e => { rec with status := "error", error := some e }

/-- Model of `process_divorce_background` (cases.py lines 150-173), same shape as
the probate one; here a kickoff failure reaches this handler as
`.error e` because `process_divorce_case` propagates it. -/
def process_divorce_background (rec : JobRecord)
    (run : Except String DivorceCrew.DivorceResults) (now : String) : JobRecord :=
  match run with
  | .ok results =>
      { rec with
        status := "completed"
        results := some (.divorce results)
        completed_at := some now }
  | .error e => { rec with status := "error", error := some e }

end CasesApi

end UKLegal

namespace UKLegal

/-! ### Shared lemmas and spec-side reference definitions -/

namespace CasesApi

/-- The status a poller observes: the status of the created record before the
background task has written back, that of the final record afterwards. -/
def observedStatus (created final : JobRecord) (afterDone : Bool) : String :=
  if afterDone then final.status else created.status

/-- The terminal job statuses named by the spec. -/
def terminalStatuses : List String := ["completed", "completed_with_fallback", "error"]

/-- Every status the spec permits a job record to carry. -/
def allowedStatuses : List String := "processing" :: terminalStatuses

end CasesApi

/-- Modelled from the spec wording of the complexity score (claim C3):
value-band points, plus one point when the property share exceeds 70%,
plus one point for HIGH urgency. -/
def complexity_score_spec (estate_value property_value : ℚ)
    (urgency : Option String) : ℕ :=
  (if estate_value > 2000000 then 3
   else if estate_value > 1000000 then 2
   else if estate_value > 500000 then 1
   else 0)
  + (if property_value > estate_value * (7/10) then 1 else 0)
  + (if urgency = some "HIGH" then 1 else 0)

/-- Modelled from the spec wording of the classification bands
(claim C3): total ≥ 4 is HIGH, ≥ 2 is MEDIUM, otherwise LOW. -/
def complexity_class_spec (score : ℕ) : String :=
  if score ≥ 4 then "HIGH" else if score ≥ 2 then "MEDIUM" else "LOW"

/-- A concrete freshly-created probate job record, used to instantiate
the lifecycle theorem. -/
def sampleProcessingRecord : CasesApi.JobRecord :=
  { status := "processing"
    created_at := "2024-01-01T00:00:00"
    case_type := "probate"
    case_data := { case_id := "PROB_AAAA0001" } }

namespace CasesApi

/-- Looking up a key right after a dict assignment yields the assigned
record. -/
theorem storeGet_storeSet_self (s : Store) (k : String) (v : JobRecord) :
    storeGet (storeSet s k v) k = some v := by
  induction s with
  | nil => simp [storeSet, storeGet, List.lookup]
  | cons hd t ih =>
      obtain ⟨k', v'⟩ := hd
      by_cases h : k' = k
      · simp [storeSet, storeGet, List.lookup, h]
      · have hne : (k == k') = false := by
          simp [Ne.symm h]
        simp only [storeGet] at ih
        simp [storeSet, storeGet, List.lookup, h, hne, ih]

end CasesApi

/-! ### Claim theorems -/

/-- Claim C2: For every probate case input, the tax estimate in the
structured result uses the standard threshold 325,000, residence
threshold 175,000 and combined threshold 500,000, and its potential tax
is `max 0 ((estate_value - 500000) * 0.4)` — never negative; in
particular estate value 600,000 yields potential tax 40,000. -/
theorem tax_estimate_thresholds :
    (∀ (cd : ProbateCrew.EnhancedCaseData) (text now : String),
      (ProbateCrew.structure_probate_results cd text now).tax_analysis
        = ProbateCrew.extract_tax_info cd.toCaseData)
  ∧ (∀ cd : CaseData,
      (ProbateCrew.extract_tax_info cd).nil_rate_band = 325000
    ∧ (ProbateCrew.extract_tax_info cd).residence_nil_rate_band = 175000
    ∧ (ProbateCrew.extract_tax_info cd).combined_threshold = 500000
    ∧ (ProbateCrew.extract_tax_info cd).potential_iht
        = max 0 ((cd.estate_value.getD 0 - 500000) * (2/5))
    ∧ 0 ≤ (ProbateCrew.extract_tax_info cd).potential_iht)
  ∧ (ProbateCrew.extract_tax_info
      { case_id := "PROB_C2EXAMPL", estate_value := some 600000 }).potential_iht
      = 40000 := by
  refine ⟨fun cd text now => rfl, fun cd => ?_, ?_⟩
  · refine ⟨rfl, rfl, by norm_num [ProbateCrew.extract_tax_info], ?_, ?_⟩
    · show max 0 ((cd.estate_value.getD 0 - (325000 + 175000)) * (2/5)) = _
      norm_num
    · exact le_max_left 0 _
  · show max 0 (((600000 : ℚ) - (325000 + 175000)) * (2/5)) = 40000
    norm_num

/-- Claim C3: For every probate case input, the complexity classification
of `_assess_complexity` is exactly the scoring scheme of the spec: value-band
points (3 / 2 / 1 above 2M / 1M / 500k), plus 1 when property value
exceeds 70% of estate value, plus 1 for HIGH urgency; total ≥ 4 is HIGH,
≥ 2 MEDIUM, else LOW.  In particular, estate 2,500,000 with property 0
and urgency HIGH scores 4 and classifies as HIGH. -/
theorem complexity_classification :
    (∀ cd : CaseData,
      ProbateCrew.assess_complexity cd
        = complexity_class_spec
            (complexity_score_spec (cd.estate_value.getD 0)
              (cd.property_value.getD 0) cd.urgency_level))
  ∧ (∀ (cd : ProbateCrew.EnhancedCaseData) (text now : String),
      (ProbateCrew.structure_probate_results cd text now).summary.complexity
        = ProbateCrew.assess_complexity cd.toCaseData)
  ∧ complexity_score_spec 2500000 0 (some "HIGH") = 4
  ∧ ProbateCrew.assess_complexity
      { case_id := "PROB_C3EXAMPL", estate_value := some 2500000,
        property_value := some 0, urgency_level := some "HIGH" } = "HIGH" := by
  refine ⟨fun cd => ?_, fun cd text now => rfl, by norm_num [complexity_score_spec], ?_⟩
  · unfold ProbateCrew.assess_complexity complexity_class_spec complexity_score_spec
    dsimp only
    split_ifs <;> simp_all
  · show ProbateCrew.assess_complexity _ = "HIGH"
    unfold ProbateCrew.assess_complexity
    norm_num

/-- Claim C5: In the probate pipeline the declared `context` of each task is
exactly its spec-declared upstream tasks: Legal-Strategy depends on
Document-Analysis only; Tax-Calculation on Document-Analysis and
Legal-Strategy; Compliance-Assessment on Document-Analysis only (in
particular NOT on Tax-Calculation); Case-Management on all four prior
tasks. -/
theorem probate_context_isolation :
    ProbateCrew.pipeline.lookup "document_analysis" = some []
  ∧ ProbateCrew.pipeline.lookup "legal_strategy" = some ["document_analysis"]
  ∧ ProbateCrew.pipeline.lookup "tax_calculation"
      = some ["document_analysis", "legal_strategy"]
  ∧ ProbateCrew.pipeline.lookup "compliance_assessment" = some ["document_analysis"]
  ∧ ProbateCrew.pipeline.lookup "case_management"
      = some ["document_analysis", "legal_strategy", "tax_calculation",
              "compliance_assessment"]
  ∧ "tax_calculation" ∉ (ProbateCrew.pipeline.lookup "compliance_assessment").getD []
  := by
  refine ⟨rfl, rfl, rfl, rfl, rfl, ?_⟩
  decide

end UKLegal

namespace UKLegal

/-- Claim C1: If the inference backend raises on any step of the probate
pipeline (`kickoff = .error msg`), `process_probate_case` returns the
fallback payload instead of raising: it carries the same case id, the
status marker "completed_with_fallback" (distinct from the normal
"completed"), the captured error message, and a non-empty next-steps
list directing to manual review; the background executor then still
transitions the job to the terminal "completed" status (not "error")
with that payload attached. -/
theorem probate_fallback_path (cd : CaseData) (msg now now2 : String)
    (rec : CasesApi.JobRecord) :
    ProbateCrew.process_probate_case cd (.error msg) now
      = .fallback (ProbateCrew.generate_fallback_results
          (ProbateCrew.enhance_case_with_context cd) msg now)
  ∧ (ProbateCrew.generate_fallback_results
      (ProbateCrew.enhance_case_with_context cd) msg now).case_id = cd.case_id
  ∧ (ProbateCrew.generate_fallback_results
      (ProbateCrew.enhance_case_with_context cd) msg now).processing_status
      = "completed_with_fallback"
  ∧ (∀ (e : ProbateCrew.EnhancedCaseData) (text : String),
      (ProbateCrew.structure_probate_results e text now).processing_status
        = "completed")
  ∧ "completed_with_fallback" ≠ "completed"
  ∧ (ProbateCrew.generate_fallback_results
      (ProbateCrew.enhance_case_with_context cd) msg now).error
      = "CrewAI processing error: " ++ msg
  ∧ (ProbateCrew.generate_fallback_results
      (ProbateCrew.enhance_case_with_context cd) msg now).next_steps ≠ []
  ∧ (CasesApi.process_probate_background rec
      (.ok (ProbateCrew.process_probate_case cd (.error msg) now)) now2).status
      = "completed"
  ∧ (CasesApi.process_probate_background rec
      (.ok (ProbateCrew.process_probate_case cd (.error msg) now)) now2).status
      ≠ "error"
  ∧ (CasesApi.process_probate_background rec
      (.ok (ProbateCrew.process_probate_case cd (.error msg) now)) now2).results
      = some (.probate (.fallback (ProbateCrew.generate_fallback_results
          (ProbateCrew.enhance_case_with_context cd) msg now))) := by
  refine ⟨rfl, rfl, rfl, fun e text => rfl, by decide, rfl, ?_, rfl, ?_, rfl⟩
  · show ("📞 Contact qualified legal advisor for immediate manual review" :: _) ≠ []
    exact List.cons_ne_nil _ _
  · show ("completed" : String) ≠ "error"
    decide

/-- Claim C6: For every divorce case, an inference-backend failure is not
recovered into a fallback payload: `process_divorce_case` propagates the
exception unchanged, and the background executor transitions the job to
the terminal "error" status with the error message recorded (and no
result payload attached). -/
theorem divorce_failure_propagates (cd : CaseData) (msg now2 : String)
    (rec : CasesApi.JobRecord) :
    DivorceCrew.process_divorce_case cd (.error msg) = .error msg
  ∧ (CasesApi.process_divorce_background rec
      (DivorceCrew.process_divorce_case cd (.error msg)) now2).status = "error"
  ∧ (CasesApi.process_divorce_background rec
      (DivorceCrew.process_divorce_case cd (.error msg)) now2).error = some msg
  ∧ (CasesApi.process_divorce_background rec
      (DivorceCrew.process_divorce_case cd (.error msg)) now2).results
      = rec.results := by
  exact ⟨rfl, rfl, rfl, rfl⟩

/-- Claim C10: For every stored case whose status is anything other than
"processing" — including a job in the "error" state — `get_case_status`
returns the progress string "✅ Complete"; the progress field therefore
cannot distinguish an errored job from a successfully completed one. -/
theorem status_progress_always_complete (store : CasesApi.Store)
    (case_id : String) (rec : CasesApi.JobRecord)
    (hfound : CasesApi.storeGet store case_id = some rec)
    (hstatus : rec.status ≠ "processing") :
    CasesApi.get_case_status store case_id
      = .ok { case_id := case_id, status := rec.status,
              case_type := rec.case_type, created_at := rec.created_at,
              progress := "✅ Complete" } := by
  simp [CasesApi.get_case_status, hfound, hstatus]

/-- Witness for C10: a concrete store holding an errored probate job,
whose status query reports progress "✅ Complete". -/
theorem status_progress_always_complete_witness :
    CasesApi.get_case_status
      [("PROB_AAAA0001",
        { status := "error", created_at := "2024-01-01T00:00:00",
          case_type := "probate",
          case_data := { case_id := "PROB_AAAA0001" },
          error := some "boom" })] "PROB_AAAA0001"
      = .ok { case_id := "PROB_AAAA0001", status := "error",
              case_type := "probate", created_at := "2024-01-01T00:00:00",
              progress := "✅ Complete" } := by
  exact status_progress_always_complete
    [("PROB_AAAA0001",
      { status := "error", created_at := "2024-01-01T00:00:00",
        case_type := "probate",
        case_data := { case_id := "PROB_AAAA0001" },
        error := some "boom" })] "PROB_AAAA0001"
    { status := "error", created_at := "2024-01-01T00:00:00",
      case_type := "probate",
      case_data := { case_id := "PROB_AAAA0001" },
      error := some "boom" }
    (by decide) (by decide)

end UKLegal

namespace UKLegal

/-- Claim C4: For every submitted case the status of the job record stays in
{processing, completed, completed_with_fallback, error}: creation (both
endpoints) stores it as "processing" and returns "processing"; the one
further write by a background executor sets a terminal status (in fact
only "completed" or "error" ever occur); and across repeated polls the
observed status never reverts from a terminal state to "processing". -/
theorem job_status_lifecycle (store : CasesApi.Store) (hex : String)
    (cd : CaseData) (now now2 : String)
    (runP : Except String ProbateCrew.ProbateResults)
    (runD : Except String DivorceCrew.DivorceResults) :
    ((CasesApi.create_probate_case store hex cd now).2.status = "processing")
  ∧ ((CasesApi.storeGet (CasesApi.create_probate_case store hex cd now).1
        ("PROB_" ++ hex)).map CasesApi.JobRecord.status = some "processing")
  ∧ ((CasesApi.create_divorce_case store hex cd now).2.status = "processing")
  ∧ ((CasesApi.storeGet (CasesApi.create_divorce_case store hex cd now).1
        ("DIV_" ++ hex)).map CasesApi.JobRecord.status = some "processing")
  ∧ "processing" ∈ CasesApi.allowedStatuses
  ∧ (∀ rec : CasesApi.JobRecord,
        (CasesApi.process_probate_background rec runP now2).status
          ∈ CasesApi.allowedStatuses
      ∧ (CasesApi.process_probate_background rec runP now2).status
          ∈ CasesApi.terminalStatuses
      ∧ (CasesApi.process_probate_background rec runP now2).status ≠ "processing")
  ∧ (∀ rec : CasesApi.JobRecord,
        (CasesApi.process_divorce_background rec runD now2).status
          ∈ CasesApi.allowedStatuses
      ∧ (CasesApi.process_divorce_background rec runD now2).status
          ∈ CasesApi.terminalStatuses
      ∧ (CasesApi.process_divorce_background rec runD now2).status ≠ "processing")
  ∧ (∀ rec : CasesApi.JobRecord, ∀ d1 d2 : Bool, (d1 = true → d2 = true) →
      CasesApi.observedStatus rec
        (CasesApi.process_probate_background rec runP now2) d1
        ∈ CasesApi.terminalStatuses →
      rec.status = "processing" →
      CasesApi.observedStatus rec
        (CasesApi.process_probate_background rec runP now2) d2
        = CasesApi.observedStatus rec
            (CasesApi.process_probate_background rec runP now2) d1) := by
  refine ⟨rfl, ?_, rfl, ?_, by decide, fun rec => ?_, fun rec => ?_, ?_⟩
  · simp only [CasesApi.create_probate_case]
    rw [CasesApi.storeGet_storeSet_self]
    rfl
  · simp only [CasesApi.create_divorce_case]
    rw [CasesApi.storeGet_storeSet_self]
    rfl
  · rcases runP with e | r
    · exact ⟨show ("error" : String) ∈ CasesApi.allowedStatuses by decide,
        show ("error" : String) ∈ CasesApi.terminalStatuses by decide,
        show ("error" : String) ≠ "processing" by decide⟩
    · exact ⟨show ("completed" : String) ∈ CasesApi.allowedStatuses by decide,
        show ("completed" : String) ∈ CasesApi.terminalStatuses by decide,
        show ("completed" : String) ≠ "processing" by decide⟩
  · rcases runD with e | r
    · exact ⟨show ("error" : String) ∈ CasesApi.allowedStatuses by decide,
        show ("error" : String) ∈ CasesApi.terminalStatuses by decide,
        show ("error" : String) ≠ "processing" by decide⟩
    · exact ⟨show ("completed" : String) ∈ CasesApi.allowedStatuses by decide,
        show ("completed" : String) ∈ CasesApi.terminalStatuses by decide,
        show ("completed" : String) ≠ "processing" by decide⟩
  · intro rec d1 d2 himp hterm hproc
    cases d1 with
    | false =>
        exfalso
        have hmem : rec.status ∈ CasesApi.terminalStatuses := hterm
        rw [hproc] at hmem
        exact absurd hmem (by decide)
    | true => rw [himp rfl]

end UKLegal

namespace UKLegal

/-- Witness for C4 at concrete inputs: creation reports "processing", a
failed background run lands in a terminal status, and a poll after
completion observes the same status again (monotonic finality). -/
theorem job_status_lifecycle_witness :
    (CasesApi.create_probate_case [] "AAAA0001" { case_id := "" }
      "2024-01-01T00:00:00").2.status = "processing"
  ∧ (CasesApi.process_probate_background sampleProcessingRecord
      (.error "boom") "2024-01-01T00:05:00").status ∈ CasesApi.terminalStatuses
  ∧ CasesApi.observedStatus sampleProcessingRecord
      (CasesApi.process_probate_background sampleProcessingRecord
        (.error "boom") "2024-01-01T00:05:00") true
      = CasesApi.observedStatus sampleProcessingRecord
          (CasesApi.process_probate_background sampleProcessingRecord
            (.error "boom") "2024-01-01T00:05:00") true := by
  have θ := job_status_lifecycle [] "AAAA0001" { case_id := "" }
    "2024-01-01T00:00:00" "2024-01-01T00:05:00"
    (.error "boom") (.error "boom")
  exact ⟨θ.1,
    (θ.2.2.2.2.2.1 sampleProcessingRecord).2.1,
    θ.2.2.2.2.2.2.2 sampleProcessingRecord true true (fun h => h)
      (show ("error" : String) ∈ CasesApi.terminalStatuses by decide) rfl⟩

end UKLegal

namespace UKLegal

/-- Counterexample to claim C9 as stated: the store already holds a
completed job under "PROB_DUPE0001", yet creating a probate case whose
generated token collides succeeds (no DuplicateJob is surfaced) and the
existing record IS overwritten by a fresh "processing" record. -/
theorem duplicate_create_overwrites_counterex :
    ((CasesApi.create_probate_case
        [("PROB_DUPE0001",
          { status := "completed", created_at := "2024-01-01T00:00:00",
            case_type := "probate",
            case_data := { case_id := "PROB_DUPE0001" } })]
        "DUPE0001" { case_id := "" } "2024-01-02T00:00:00").2.success = true)
  ∧ (CasesApi.storeGet
      (CasesApi.create_probate_case
        [("PROB_DUPE0001",
          { status := "completed", created_at := "2024-01-01T00:00:00",
            case_type := "probate",
            case_data := { case_id := "PROB_DUPE0001" } })]
        "DUPE0001" { case_id := "" } "2024-01-02T00:00:00").1 "PROB_DUPE0001"
      ≠ some { status := "completed", created_at := "2024-01-01T00:00:00",
               case_type := "probate",
               case_data := { case_id := "PROB_DUPE0001" } })
  ∧ ((CasesApi.storeGet
      (CasesApi.create_probate_case
        [("PROB_DUPE0001",
          { status := "completed", created_at := "2024-01-01T00:00:00",
            case_type := "probate",
            case_data := { case_id := "PROB_DUPE0001" } })]
        "DUPE0001" { case_id := "" } "2024-01-02T00:00:00").1 "PROB_DUPE0001").map
        CasesApi.JobRecord.status = some "processing") := by
  refine ⟨rfl, ?_, rfl⟩
  intro h
  exact absurd (Option.some.inj h) (by decide)

/-- Claim C9 amended: Neither creation endpoint ever consults the store
before writing: for every store and generated token, create succeeds
(success = true) and unconditionally binds the case id to a fresh
"processing" record — overwriting whatever record, if any, was there.
Id uniqueness rests solely on the random token. -/
theorem create_never_checks_duplicates (store : CasesApi.Store) (hex : String)
    (cd : CaseData) (now : String) :
    ((CasesApi.create_probate_case store hex cd now).2.success = true)
  ∧ (CasesApi.storeGet (CasesApi.create_probate_case store hex cd now).1
        ("PROB_" ++ hex)
      = some { status := "processing", created_at := now, case_type := "probate",
               case_data := { cd with case_id := "PROB_" ++ hex } })
  ∧ ((CasesApi.create_divorce_case store hex cd now).2.success = true)
  ∧ (CasesApi.storeGet (CasesApi.create_divorce_case store hex cd now).1
        ("DIV_" ++ hex)
      = some { status := "processing", created_at := now, case_type := "divorce",
               case_data := { cd with case_id := "DIV_" ++ hex } }) := by
  refine ⟨rfl, ?_, rfl, ?_⟩
  · simp only [CasesApi.create_probate_case]
    exact CasesApi.storeGet_storeSet_self ..
  · simp only [CasesApi.create_divorce_case]
    exact CasesApi.storeGet_storeSet_self ..

/-- Counterexample to claim C7 as stated: a job in the terminal "error"
state and a job still in "processing" produce byte-identical result-query
responses (the same 400 "Case is still processing" rejection), so result
queries do NOT distinguish "failed" from "still running". -/
theorem result_query_error_vs_processing_counterex :
    CasesApi.get_case_results
      [("PROB_ERR00001",
        { status := "error", created_at := "2024-01-01T00:00:00",
          case_type := "probate", case_data := { case_id := "PROB_ERR00001" },
          error := some "boom" })] "PROB_ERR00001"
      = CasesApi.get_case_results
          [("PROB_RUN00001",
            { status := "processing", created_at := "2024-01-01T00:00:00",
              case_type := "probate",
              case_data := { case_id := "PROB_RUN00001" } })] "PROB_RUN00001"
  ∧ CasesApi.get_case_results
      [("PROB_ERR00001",
        { status := "error", created_at := "2024-01-01T00:00:00",
          case_type := "probate", case_data := { case_id := "PROB_ERR00001" },
          error := some "boom" })] "PROB_ERR00001"
      = .error { status_code := 400, detail := "Case is still processing" } := by
  exact ⟨rfl, rfl⟩

/-- Claim C7 amended: A result query for an unknown case id fails with
404 NotFound; for a known id whose status is anything other than
"completed" — errored jobs included — it fails with the one 400 "Case is
still processing" error, so a failed job is indistinguishable from a
still-running one at this interface; when the status is "completed"
(which covers fallback completions) the stored payload is returned, and
only its embedded status marker separates degraded from normal success. -/
theorem result_query_behavior (store : CasesApi.Store) (case_id : String) :
    (CasesApi.storeGet store case_id = none →
      CasesApi.get_case_results store case_id
        = .error { status_code := 404, detail := "Case not found" })
  ∧ (∀ rec : CasesApi.JobRecord, CasesApi.storeGet store case_id = some rec →
      rec.status ≠ "completed" →
      CasesApi.get_case_results store case_id
        = .error { status_code := 400, detail := "Case is still processing" })
  ∧ (∀ rec : CasesApi.JobRecord, CasesApi.storeGet store case_id = some rec →
      rec.status = "completed" →
      CasesApi.get_case_results store case_id
        = .ok { case_id := case_id, results := rec.results,
                status := "completed" }) := by
  refine ⟨fun h => ?_, fun rec h hs => ?_, fun rec h hs => ?_⟩
  · simp [CasesApi.get_case_results, h]
  · simp [CasesApi.get_case_results, h, hs]
  · simp [CasesApi.get_case_results, h, hs]

/-- Witness for C7 (amended) at concrete inputs: the empty store yields
404, and a store holding an errored job yields the 400 "still
processing" rejection. -/
theorem result_query_behavior_witness :
    CasesApi.get_case_results [] "PROB_NONE0001"
      = .error { status_code := 404, detail := "Case not found" }
  ∧ CasesApi.get_case_results
      [("PROB_ERR00002",
        { status := "error", created_at := "2024-01-01T00:00:00",
          case_type := "probate", case_data := { case_id := "PROB_ERR00002" },
          error := some "boom" })] "PROB_ERR00002"
      = .error { status_code := 400, detail := "Case is still processing" } := by
  refine ⟨(result_query_behavior [] "PROB_NONE0001").1 rfl, ?_⟩
  exact (result_query_behavior _ "PROB_ERR00002").2.1
    { status := "error", created_at := "2024-01-01T00:00:00",
      case_type := "probate", case_data := { case_id := "PROB_ERR00002" },
      error := some "boom" } rfl (by decide)

end UKLegal

namespace UKLegal

/-- Lemma: `addSection` preserves distinctness of the selected section names
(a duplicate name is skipped: first occurrence wins). -/
theorem addSection_names_nodup (acc : List (String × String)) (sec : String)
    (h : (acc.map Prod.fst).Nodup) : ((addSection acc sec).map Prod.fst).Nodup := by
  unfold addSection
  cases legal_knowledge.lookup sec with
  | none => exact h
  | some content =>
      by_cases hmem : acc.any (fun s => s.1 = sec) = true
      · simpa [hmem] using h
      · have hnotin : sec ∉ acc.map Prod.fst := by
          simp only [List.any_eq_true, decide_eq_true_eq] at hmem
          simp only [List.mem_map]
          rintro ⟨x, hx, hfst⟩
          exact hmem ⟨x, hx, hfst⟩
        have happ : (List.map Prod.fst acc ++ [sec]).Nodup := by
          rw [List.nodup_append]
          refine ⟨h, List.nodup_singleton _, ?_⟩
          intro a ha hb
          rw [List.mem_singleton] at hb
          exact hnotin (hb ▸ ha)
        simpa [hmem] using happ

/-- Folding `addSection` over any list of section names preserves
distinctness of the selected names. -/
theorem foldl_addSection_names_nodup (secs : List String)
    (acc : List (String × String)) (h : (acc.map Prod.fst).Nodup) :
    ((secs.foldl addSection acc).map Prod.fst).Nodup := by
  induction secs generalizing acc with
  | nil => exact h
  | cons s t ih => exact ih (addSection acc s) (addSection_names_nodup acc s h)

/-- The keyword-matching loop of `search_legal_info` only ever selects
pairwise-distinct section names. -/
theorem matchedSections_names_nodup (ql : String)
    (kws : List (String × List String)) (acc : List (String × String))
    (h : (acc.map Prod.fst).Nodup) :
    ((kws.foldl
        (fun acc kv =>
          if strContainsSub ql kv.1 then kv.2.foldl addSection acc else acc)
        acc).map Prod.fst).Nodup := by
  induction kws generalizing acc with
  | nil => exact h
  | cons kv t ih =>
      by_cases hc : strContainsSub ql kv.1 = true
      · simpa [hc] using ih _ (foldl_addSection_names_nodup kv.2 acc h)
      · simp only [Bool.not_eq_true] at hc
        simpa [hc] using ih _ h
/-- When no keyword of the mapping occurs in the lowered query, the
matching loop leaves the accumulator untouched. -/
theorem matchedSections_nil_of_no_match (ql : String)
    (kws : List (String × List String)) (acc : List (String × String))
    (h : kws.all (fun kv => !(strContainsSub ql kv.1)) = true) :
    kws.foldl
      (fun acc kv =>
        if strContainsSub ql kv.1 then kv.2.foldl addSection acc else acc)
      acc = acc := by
  induction kws generalizing acc with
  | nil => rfl
  | cons kv t ih =>
      simp only [List.all_cons, Bool.and_eq_true, Bool.not_eq_true'] at h
      obtain ⟨h1, h2⟩ := h
      simpa [h1] using ih acc (by simpa [List.all_eq_true] using h2)

/-- Claim C8: The knowledge lookup is a total function of the query (hence
deterministic and side-effect-free): it lower-cases the query and
substring-matches each known keyword, collecting matched topics in the
order the mapping defines with duplicates suppressed (the selected section
names are always pairwise distinct); when no keyword matches it selects
exactly the default pair (general probate-process overview + general
inheritance-tax overview); and the response is the query header followed
by at most the first two selected topics — each rendered with its
humanised title — and the fixed disclaimer suffix. -/
theorem knowledge_lookup_spec (q : String) :
    ((relevantSections q).map Prod.fst).Nodup
  ∧ (keyword_mapping.all (fun kv => !(strContainsSub (strLower q) kv.1)) = true →
      relevantSections q = defaultSections)
  ∧ search_legal_info q
      = "Legal Research Results for: \x27" ++ q ++ "\x27\n\n"
        ++ ((relevantSections q).take 2).foldl (fun acc s => acc ++ formatSection s) ""
        ++ disclaimerNote
  ∧ ((relevantSections q).take 2).length ≤ 2 := by
  refine ⟨?_, fun hall => ?_, rfl, ?_⟩
  · unfold relevantSections
    by_cases hnil : matchedSections (strLower q) = []
    · simp only [hnil, if_true]
      decide
    · simp only [hnil, if_false]
      exact matchedSections_names_nodup (strLower q) keyword_mapping [] (by decide)
  · unfold relevantSections
    rw [show matchedSections (strLower q) = [] from
      matchedSections_nil_of_no_match (strLower q) keyword_mapping [] hall]
    rfl
  · rw [List.length_take]
    exact min_le_left 2 _

/-- Witness for C8 at concrete queries: a multi-keyword query selects
distinct sections, and a query matching no keyword gets the default
pair. -/
theorem knowledge_lookup_spec_witness :
    ((relevantSections "Inheritance Tax on a probate estate").map Prod.fst).Nodup
  ∧ relevantSections "hello" = defaultSections := by
  exact ⟨(knowledge_lookup_spec "Inheritance Tax on a probate estate").1,
    (knowledge_lookup_spec "hello").2.1 (by decide)⟩

end UKLegal
